import Mathlib

/-!
Verification development for the tsw_hud_recorded route-recording and
route-projection pipeline.

The JavaScript source computes with IEEE doubles; the embedding models the
numeric field abstractly as a `LinearOrderedField` and the geodesic distance
primitive (`calculateDistance`, the Haversine formula) either concretely over
`ℝ` (for statements about the actual formula) or as an abstract parameter
`dist` (for the structural statements, which hold for every distance
function).  JavaScript `undefined`/`null` fields are modelled as `Option`,
and JavaScript truthiness on numbers (`0`, `undefined` falsy) and strings
(`""`, `undefined` falsy) is modelled explicitly.
-/

namespace TswHud

/-- A latitude/longitude pair, as used throughout the source. -/
structure Coord (α : Type*) where
  latitude : α
  longitude : α
  deriving DecidableEq

instance {α : Type*} [Zero α] : Inhabited (Coord α) := ⟨⟨0, 0⟩⟩

/-- Model of JavaScript `Math.atan2 y x`: the argument of the complex number
`x + y*I`, which has the same value and the same sign conventions
(range `(-π, π]`, `atan2 0 0 = 0`). -/
noncomputable def atan2 (y x : ℝ) : ℝ := Complex.arg ⟨x, y⟩

/-- Embedding of `calculateDistance(lat1, lon1, lat2, lon2)` from
`process_trip.js` (and its identical copy in the playback server):
the Haversine great-circle distance with Earth radius 6 371 000 m. -/
noncomputable def calculateDistance (lat1 lon1 lat2 lon2 : ℝ) : ℝ :=
  let R : ℝ := 6371000
  let phi1 := lat1 * Real.pi / 180
  let phi2 := lat2 * Real.pi / 180
  let deltaPhi := (lat2 - lat1) * Real.pi / 180
  let deltaLambda := (lon2 - lon1) * Real.pi / 180
  let a := Real.sin (deltaPhi / 2) * Real.sin (deltaPhi / 2) +
      Real.cos phi1 * Real.cos phi2 *
      Real.sin (deltaLambda / 2) * Real.sin (deltaLambda / 2)
  let c := 2 * atan2 (Real.sqrt a) (Real.sqrt (1 - a))
  R * c

/-- The Haversine distance as a function on coordinate pairs, the form in
which every caller in the source uses it. -/
noncomputable def havDist (p q : Coord ℝ) : ℝ :=
  calculateDistance p.latitude p.longitude q.latitude q.longitude

section Parametric

variable {α : Type*} [LinearOrderedField α]

/-- Linear interpolation between two coordinates, as computed inline in
`followRoutePath` (`current + (next - current) * ratio` on each component). -/
def interpolate (current next : Coord α) (ratio : α) : Coord α :=
  ⟨current.latitude + (next.latitude - current.latitude) * ratio,
   current.longitude + (next.longitude - current.longitude) * ratio⟩

/-- The `while` loop of `followRoutePath`: starting at `currentIndex` with
`remaining` metres still to consume, walk segment by segment; when a segment
is at least as long as the remainder, interpolate inside it; when the last
index is reached (or `remaining ≤ 0`), return the final coordinate of the
polyline. -/
def followAux (dist : Coord α → Coord α → α) (coords : List (Coord α))
    (currentIndex : Nat) (remaining : α) : Coord α :=
  if h : currentIndex < coords.length - 1 ∧ 0 < remaining then
    let current := coords.getD currentIndex default
    let next := coords.getD (currentIndex + 1) default
    let segmentDistance := dist current next
    if remaining ≤ segmentDistance then
      interpolate current next (remaining / segmentDistance)
    else
      followAux dist coords (currentIndex + 1) (remaining - segmentDistance)
  else
    (coords.getLast?).getD default
  termination_by coords.length - currentIndex
  decreasing_by omega

/-- Embedding of `followRoutePath(coordinates, startIndex, distanceMeters)`
from `process_trip.js`.  On an empty coordinate list the JavaScript reads
`.latitude` of `undefined` and throws; that case is modelled as `none`. -/
def followRoutePath (dist : Coord α → Coord α → α) (coords : List (Coord α))
    (startIndex : Nat) (distanceMeters : α) : Option (Coord α) :=
  match coords with
  | [] => none
  | _ :: _ =>
    if coords.length - 1 ≤ startIndex then
      some ((coords.getLast?).getD default)
    else
      some (followAux dist coords startIndex distanceMeters)

/-- JavaScript comparison `distance < minDistance` where `minDistance` starts
at `Infinity` (modelled as `none`): everything is below `Infinity`. -/
def ltMin (d : α) (m : Option α) : Bool :=
  match m with
  | none => true
  | some v => decide (d < v)

/-- The scanning loop shared by `findNearestCoordinateIndex`
(`process_trip.js`) and `findNearestRouteIndex` (playback server): `i` is the
index of the head of `rest` inside the full polyline, `best` the index of the
running minimum, `minD` the running minimum distance (`none` = `Infinity`). -/
def findNearestAux (dist : Coord α → Coord α → α) (target : Coord α) :
    List (Coord α) → Nat → Option α → Nat → Nat
  | [], _, _, best => best
  | c :: rest, i, minD, best =>
    let d := dist target c
    if ltMin d minD then
      findNearestAux dist target rest (i + 1) (some d) i
    else
      findNearestAux dist target rest (i + 1) minD best

/-- Embedding of `findNearestCoordinateIndex(coordinates, targetLat,
targetLon)` from `process_trip.js`: linear scan keeping the strictly
smallest Haversine distance, starting from `minDistance = Infinity`,
`nearestIndex = 0`. -/
def findNearestCoordinateIndex (dist : Coord α → Coord α → α)
    (coords : List (Coord α)) (target : Coord α) : Nat :=
  findNearestAux dist target coords 0 none 0

/-- JavaScript truthiness of a possibly-absent number: `undefined` and `0`
are falsy, every other number is truthy. -/
def numTruthy (x : Option α) : Bool :=
  match x with
  | none => false
  | some v => decide (v ≠ 0)

/-- JavaScript truthiness of a possibly-absent string: `undefined` and `""`
are falsy. -/
def strTruthy (x : Option String) : Bool :=
  match x with
  | none => false
  | some s => decide (s ≠ "")

/-- JavaScript `a || b` on possibly-absent numbers, as in
`marker.latitude || marker.detectedAt?.latitude`. -/
def numOrElse (a b : Option α) : Option α :=
  if numTruthy a then a else b

/-- JavaScript `Math.round` (round half towards positive infinity). -/
def jsRound [FloorRing α] (x : α) : ℤ := ⌊x + 1 / 2⌋

/-- A marker record as built by the recorder and consumed by
`processMarkers` and the playback server; every field may be absent. -/
structure Marker (α : Type*) where
  stationName : Option String := none
  markerType : Option String := none
  detectedAt : Option (Coord α) := none
  distanceAheadMeters : Option α := none
  timestamp : Option String := none
  platformLength : Option α := none
  onspot_latitude : Option α := none
  onspot_longitude : Option α := none
  onspot_timestamp : Option String := none
  spoton_distance : Option α := none
  latitude : Option α := none
  longitude : Option α := none
  isTimetableStation : Option Bool := none
  calculationMethod : Option String := none
  deriving DecidableEq

/-- A loaded route file as the playback server sees it
(`loadedRouteData`); the `coordinates` and `markers` fields may be absent
from the JSON. -/
structure RouteData (α : Type*) where
  coordinates : Option (List (Coord α)) := none
  markers : Option (List (Marker α)) := none
  deriving DecidableEq

/-- Embedding of `findNearestRouteIndex(lat, lon)` from the playback
server: `-1` when no route or no `coordinates` field is loaded, otherwise
the same linear scan as `findNearestCoordinateIndex`. -/
def findNearestRouteIndex (dist : Coord α → Coord α → α)
    (route : Option (RouteData α)) (p : Coord α) : ℤ :=
  match route with
  | none => -1
  | some rd =>
    match rd.coordinates with
    | none => -1
    | some coords => (findNearestCoordinateIndex dist coords p : ℤ)

/-- The summation loop of `calculateDistanceAlongRoute`:
`for (i = playerIndex; i < markerIndex; i++) total += dist(c[i], c[i+1])`. -/
def sumSegLoop (dist : Coord α → Coord α → α) (coords : List (Coord α))
    (i stop : Nat) (total : α) : α :=
  if i < stop then
    sumSegLoop dist coords (i + 1) stop
      (total + dist (coords.getD i default) (coords.getD (i + 1) default))
  else
    total
  termination_by stop - i
  decreasing_by omega

/-- Embedding of `calculateDistanceAlongRoute(playerLat, playerLon,
markerLat, markerLon)` from the playback server. -/
def calculateDistanceAlongRoute (dist : Coord α → Coord α → α)
    (route : Option (RouteData α)) (player marker : Coord α) : Option α :=
  match route with
  | none => none
  | some rd =>
    match rd.coordinates with
    | none => none
    | some coords =>
      let playerIndex := findNearestRouteIndex dist route player
      let markerIndex := findNearestRouteIndex dist route marker
      if playerIndex = -1 ∨ markerIndex = -1 then none
      else if markerIndex ≤ playerIndex then some 0
      else some (sumSegLoop dist coords playerIndex.toNat markerIndex.toNat 0)

/-- The per-marker resolution step of `processMarkers`
(`process_trip.js`, the `try`/`catch` body): set `isTimetableStation`, then
method 1 (on-spot fields, gated by JavaScript truthiness of
`onspot_latitude`/`onspot_longitude` and presence of `spoton_distance`),
else method 2 (`detectedAt` position, same truthiness gating, presence of
`distanceAheadMeters`), else the error path tagged `none`.  A thrown
`followRoutePath` (empty polyline) lands in the `catch` branch tagged
`error`. -/
def resolveMarker (dist : Coord α → Coord α → α) (coords : List (Coord α))
    (timetableStations : List String) (m : Marker α) : Marker α :=
  let m := { m with
    isTimetableStation := some (match m.stationName with
      | none => false
      | some s => decide (s ∈ timetableStations)) }
  if numTruthy m.onspot_latitude && numTruthy m.onspot_longitude &&
      m.spoton_distance.isSome then
    match followRoutePath dist coords
        (findNearestCoordinateIndex dist coords
          ⟨m.onspot_latitude.getD 0, m.onspot_longitude.getD 0⟩)
        (m.spoton_distance.getD 0) with
    | some position =>
      { m with latitude := some position.latitude,
               longitude := some position.longitude,
               calculationMethod := some "onspot" }
    | none => { m with calculationMethod := some "error" }
  else if (match m.detectedAt with
      | none => false
      | some da => numTruthy (some da.latitude) && numTruthy (some da.longitude)) &&
      m.distanceAheadMeters.isSome then
    match followRoutePath dist coords
        (findNearestCoordinateIndex dist coords
          ⟨(m.detectedAt.getD default).latitude, (m.detectedAt.getD default).longitude⟩)
        (m.distanceAheadMeters.getD 0) with
    | some position =>
      { m with latitude := some position.latitude,
               longitude := some position.longitude,
               calculationMethod := some "detectedAt" }
    | none => { m with calculationMethod := some "error" }
  else
    { m with calculationMethod := some "none" }

/-- The field clean-up at the end of each `processMarkers` iteration: the
nine `delete marker.…` statements (including `platformLength`). -/
def cleanupMarker (m : Marker α) : Marker α :=
  { m with detectedAt := none, distanceAheadMeters := none,
           timestamp := none, platformLength := none,
           calculationMethod := none, onspot_latitude := none,
           onspot_longitude := none, onspot_timestamp := none,
           spoton_distance := none }

/-- One full `processMarkers` iteration for a single marker: resolution
followed by field clean-up. -/
def processMarker (dist : Coord α → Coord α → α) (coords : List (Coord α))
    (timetableStations : List String) (m : Marker α) : Marker α :=
  cleanupMarker (resolveMarker dist coords timetableStations m)

/-- The `processMarkers` loop over the whole marker list. -/
def processMarkers (dist : Coord α → Coord α → α) (coords : List (Coord α))
    (timetableStations : List String) (markers : List (Marker α)) :
    List (Marker α) :=
  markers.map (processMarker dist coords timetableStations)

/-- A trace point as pushed onto `routeCoordinates` by the recorder:
position plus the latest known height and gradient. -/
structure TracePoint (α : Type*) where
  longitude : α
  latitude : α
  height : Option α := none
  gradient : Option α := none
  deriving DecidableEq

/-- The recorder state touched by the `DriverAid.PlayerInfo` handler:
the appended polyline, the `lastRouteCoordinate` dedup reference and the
`routeCollectionRequestCount` counter. -/
structure RecState (α : Type*) where
  routeCoordinates : List (TracePoint α)
  lastRouteCoordinate : Option (TracePoint α)
  requestCount : Nat
  deriving DecidableEq

/-- The recorder's initial state (`routeCoordinates = []`,
`lastRouteCoordinate = null`, count 0). -/
def initRecState : RecState α := ⟨[], none, 0⟩

/-- Embedding of the `DriverAid.PlayerInfo` handler of the recording
server: build the coordinate (with current height/gradient), and append it
only when it differs from `lastRouteCoordinate` in longitude or latitude
(exact comparison, `!==`). -/
def observePosition (st : RecState α) (c : TracePoint α) : RecState α :=
  let push : RecState α :=
    ⟨st.routeCoordinates ++ [c], some c, st.requestCount + 1⟩
  match st.lastRouteCoordinate with
  | none => push
  | some last =>
    if last.longitude ≠ c.longitude ∨ last.latitude ≠ c.latitude then push
    else st

/-- Feeding a whole stream of position observations to the recorder. -/
def runRecorder (obs : List (TracePoint α)) : RecState α :=
  obs.foldl observePosition initRecState

/-- Two trace points that agree in latitude and longitude (the pair the
dedup check compares). -/
def sameLatLon (a b : TracePoint α) : Prop :=
  a.latitude = b.latitude ∧ a.longitude = b.longitude

instance (a b : TracePoint α) : Decidable (sameLatLon a b) := by
  unfold sameLatLon; infer_instance

end Parametric

section Timetable

/-- A timetable stop as consumed by `getTimetableDisplay`.  The
`departure`/`arrival` fields model `timeToSeconds` applied to the stored
`HH:MM:SS` strings: `none` is the JavaScript `null` returned for an
absent or empty time string, `some n` the second count of a well-formed
one. -/
structure Stop where
  destination : Option String := none
  arrival : Option Nat := none
  departure : Option Nat := none
  apiName : Option String := none
  deriving DecidableEq

/-- The display record returned by `getTimetableDisplay`, with `time`
modelled in seconds like the stop fields. -/
structure TDisplay where
  time : Option Nat
  label : Option String
  targetApiName : Option String
  showDistance : Bool
  deriving DecidableEq

/-- The all-`null` display returned on an empty timetable, a missing
current time, an exception, or fall-through past the loop. -/
def allNull : TDisplay := ⟨none, none, none, false⟩

/-- Display for a `DEPARTURE` branch of `getTimetableDisplay`. -/
def depDisplay (s : Stop) : TDisplay := ⟨s.departure, some "DEPARTURE", none, false⟩

/-- Display for the between-stops branch (next stop's arrival). -/
def arrDisplay (s : Stop) : TDisplay := ⟨s.arrival, s.destination, s.apiName, true⟩

/-- Display for the last-stop branch. -/
def lastDisplay (s : Stop) : TDisplay := ⟨s.arrival, s.destination, s.apiName, true⟩

/-- JavaScript truthiness of a `timeToSeconds` result: `null` and `0`
(midnight) are falsy. -/
def timeTruthy (t : Option Nat) : Bool :=
  match t with
  | none => false
  | some n => decide (n ≠ 0)

/-- JavaScript `currentSeconds < t` where `t` may be `null` (which
relational operators coerce to `0`). -/
def jsLtTime (c : Nat) (t : Option Nat) : Bool := decide (c < t.getD 0)

/-- JavaScript `currentSeconds >= t` with the same `null`-to-`0`
coercion. -/
def jsGeTime (c : Nat) (t : Option Nat) : Bool := decide (t.getD 0 ≤ c)

/-- The `for` loop of `getTimetableDisplay`, one constructor case per list
shape: the flag records whether the current element has index 0 (the only
branch that reads it).  The cases follow the source's branch order: first
stop departure, last stop, not-yet-departed stop, between-stops, arrived at
next stop. -/
def ttLoop (c : Nat) : Bool → List Stop → TDisplay
  | _, [] => allNull
  | first, [s] =>
    if first && jsLtTime c s.departure then depDisplay s
    else lastDisplay s
  | first, s :: next :: rest =>
    if first && jsLtTime c s.departure then depDisplay s
    else if timeTruthy s.departure && jsLtTime c s.departure then depDisplay s
    else if jsGeTime c s.departure && jsLtTime c next.arrival then arrDisplay next
    else if jsGeTime c next.arrival then
      if timeTruthy next.departure && jsLtTime c next.departure then depDisplay next
      else ttLoop c false (next :: rest)
    else ttLoop c false (next :: rest)

/-- Embedding of `getTimetableDisplay(currentTimeISO)` (identical in the
recording and playback servers).  `current = none` models a missing
`localTime` or a current-time string whose time-of-day extraction throws
(both return the all-`null` display via the guard or the `catch`). -/
def getTimetableDisplay (stops : List Stop) (current : Option Nat) : TDisplay :=
  match stops, current with
  | [], _ => allNull
  | _, none => allNull
  | s :: rest, some c => ttLoop c true (s :: rest)

end Timetable

section Tick

variable {α : Type*} [LinearOrderedField α]

/-- One station/marker item of a `DriverAid.TrackData` entry, as read by
the tick handlers. -/
structure TrackItem (α : Type*) where
  stationName : Option String := none
  distanceToStationCM : Option α := none
  deriving DecidableEq

/-- The `Values` of the first valid `DriverAid.TrackData` entry of a
snapshot; either array may be absent. -/
structure TrackData (α : Type*) where
  stations : Option (List (TrackItem α)) := none
  markers : Option (List (TrackItem α)) := none
  deriving DecidableEq

/-- The `lastDistanceToStation` / `lastTargetApiName` module state of the
recording server's SSE tick handler. -/
structure TickState where
  lastDistanceToStation : Option ℤ
  lastTargetApiName : Option String
  deriving DecidableEq

/-- The markers-array fallback of the tick handler's distance extraction:
the loop breaks at the first name match and records a distance only when
`distanceToStationCM` is a number. -/
def markerArrayLookup [FloorRing α] (td : TrackData α) (target : String)
    (current : Option ℤ) : Option ℤ :=
  match (td.markers.getD []).find? (fun it => it.stationName = some target) with
  | some it =>
    match it.distanceToStationCM with
    | some cm => some (jsRound (cm / 100))
    | none => current
  | none => current

/-- The distance-extraction section of the recording server's tick handler
(`stations` array first; `foundDistance` stays false when the matching
station lacks a numeric distance, in which case the `markers` array is
consulted). -/
def extractTargetDistance [FloorRing α] (td : TrackData α) (target : String)
    (current : Option ℤ) : Option ℤ :=
  match (td.stations.getD []).find? (fun it => it.stationName = some target) with
  | some it =>
    match it.distanceToStationCM with
    | some cm => some (jsRound (cm / 100))
    | none => markerArrayLookup td target current
  | none => markerArrayLookup td target current

/-- Embedding of the timetable-distance section of the recording server's
SSE tick handler, entered when `localTime` is present: clear the cached
distance when the computed target changes, then extract a fresh distance
for the (truthy) target from the first valid `DriverAid.TrackData` entry
(`td = none` when the snapshot has no such entry), and emit
`distanceToStation` only when `showDistance` holds and a cached distance
exists. -/
def tickDistanceUpdate [FloorRing α] (st : TickState) (display : TDisplay)
    (td : Option (TrackData α)) : TickState × Option ℤ :=
  let st1 : TickState :=
    if display.targetApiName ≠ st.lastTargetApiName then
      ⟨none, display.targetApiName⟩
    else st
  let st2 : TickState :=
    if strTruthy display.targetApiName then
      match td with
      | some tdv =>
        ⟨extractTargetDistance tdv (display.targetApiName.getD "")
            st1.lastDistanceToStation,
          st1.lastTargetApiName⟩
      | none => st1
    else st1
  (st2,
    if display.showDistance ∧ st2.lastDistanceToStation ≠ none then
      st2.lastDistanceToStation
    else none)

/-- The record returned by `getNextTimetableMarker` in the playback
server. -/
structure NextMarker (α : Type*) where
  name : Option String
  latitude : Option α
  longitude : Option α
  mtype : Option String
  deriving DecidableEq

/-- Embedding of `getNextTimetableMarker(targetApiName)` from the playback
server, including the `marker.latitude || marker.detectedAt?.latitude`
fallback to the raw detection position. -/
def getNextTimetableMarker (route : Option (RouteData α))
    (target : Option String) : Option (NextMarker α) :=
  if ¬ strTruthy target then none
  else
    match route with
    | none => none
    | some rd =>
      match rd.markers with
      | none => none
      | some ms =>
        match ms.find? (fun m => m.stationName = target) with
        | none => none
        | some m =>
          some ⟨m.stationName,
            numOrElse m.latitude (m.detectedAt.map Coord.latitude),
            numOrElse m.longitude (m.detectedAt.map Coord.longitude),
            m.markerType⟩

/-- The distance-to-station computation of the playback server's SSE tick
(`if (timetableDisplay.targetApiName && currentPlayerPosition) …`):
look up the target marker, require truthy latitude and longitude, project
along the route and round; `none` models the field staying `null`. -/
def streamDistance [FloorRing α] (dist : Coord α → Coord α → α)
    (route : Option (RouteData α)) (target : Option String)
    (playerPos : Option (Coord α)) : Option ℤ :=
  match playerPos with
  | none => none
  | some pos =>
    if ¬ strTruthy target then none
    else
      match getNextTimetableMarker route target with
      | none => none
      | some nm =>
        if numTruthy nm.latitude && numTruthy nm.longitude then
          match calculateDistanceAlongRoute dist route pos
              ⟨nm.latitude.getD 0, nm.longitude.getD 0⟩ with
          | none => none
          | some d => some (jsRound d)
        else none

end Tick

section SpecModels

variable {α : Type*} [LinearOrderedField α]

/-- Formalisation of the walk-forward operation as the specification words
it: accumulate consecutive segment lengths from the start index until the
accumulated length reaches the requested distance, then interpolate inside
the final segment proportionally to the still-uncovered remainder; return
the last coordinate when the polyline is exhausted first.  Used as the
specification side of the refinement statement about `followRoutePath`. -/
def walkAccum (dist : Coord α → Coord α → α) (coords : List (Coord α))
    (i : Nat) (accumulated d : α) : Coord α :=
  if h : i < coords.length - 1 then
    let c := coords.getD i default
    let n := coords.getD (i + 1) default
    let seg := dist c n
    if d ≤ accumulated + seg then interpolate c n ((d - accumulated) / seg)
    else walkAccum dist coords (i + 1) (accumulated + seg) d
  else
    (coords.getLast?).getD default
  termination_by coords.length - i
  decreasing_by omega

/-- Specification-side description of the projector's segment sum: the sum
of the distances of every consecutive coordinate pair from index `lo` up to
index `hi`. -/
def segmentSum (dist : Coord α → Coord α → α) (coords : List (Coord α))
    (lo hi : Nat) : α :=
  ((List.range (hi - lo)).map
    (fun k => dist (coords.getD (lo + k) default)
      (coords.getD (lo + k + 1) default))).sum

end SpecModels

section ConcreteInputs

/-- An executable distance function on rational coordinates, used to
instantiate the distance-parametric statements on concrete inputs. -/
def taxiDist (p q : Coord ℚ) : ℚ :=
  |q.latitude - p.latitude| + |q.longitude - p.longitude|

end ConcreteInputs

section RecorderProofs

variable {α : Type*} [LinearOrderedField α]

/-- The adjacent-distinctness relation of the dedup invariant. -/
def NoDup2 (l : List (TracePoint α)) : Prop :=
  List.Chain' (fun a b => ¬ sameLatLon a b) l

/-- The recorder invariant: `lastRouteCoordinate` mirrors the last appended
trace point, and no two consecutive trace points share a position. -/
def RecInv (st : RecState α) : Prop :=
  st.lastRouteCoordinate = st.routeCoordinates.getLast? ∧
    NoDup2 st.routeCoordinates

theorem recInv_init : RecInv (initRecState : RecState α) := by
  constructor <;> simp [initRecState, NoDup2]

theorem recInv_observePosition (st : RecState α) (c : TracePoint α)
    (h : RecInv st) : RecInv (observePosition st c) := by
  obtain ⟨hlast, hnd⟩ := h
  unfold observePosition
  cases hst : st.lastRouteCoordinate with
  | none =>
    have : st.routeCoordinates = [] := by
      rw [hst] at hlast
      exact (List.getLast?_eq_none_iff).1 hlast.symm
    constructor
    · simp [this]
    · simp [this, NoDup2]
  | some last =>
    dsimp only
    by_cases hdiff : last.longitude ≠ c.longitude ∨ last.latitude ≠ c.latitude
    · rw [if_pos hdiff]
      constructor
      · simp [List.getLast?_concat]
      · refine (List.chain'_append).2 ⟨hnd, List.chain'_singleton _, ?_⟩
        intro x hx y hy
        rw [← hlast, hst] at hx
        simp only [Option.mem_def, Option.some.injEq] at hx
        simp only [List.head?_cons, Option.mem_def, Option.some.injEq] at hy
        subst hx; subst hy
        intro hsame
        rcases hdiff with h1 | h1
        · exact h1 hsame.2
        · exact h1 hsame.1
    · rw [if_neg hdiff]
      exact ⟨hlast, hnd⟩

theorem recInv_foldl (obs : List (TracePoint α)) :
    ∀ st : RecState α, RecInv st → RecInv (obs.foldl observePosition st) := by
  induction obs with
  | nil => intro st h; simpa using h
  | cons o rest ih =>
    intro st h
    exact ih _ (recInv_observePosition st o h)

/-- C4: for every sequence of position observations, the recorded
coordinate sequence never contains two consecutive entries with identical
latitude and longitude; an observation exactly equal to the last-appended
coordinate leaves the recorder state unchanged, and any observation
differing in latitude or longitude (or arriving when nothing was appended
yet) is appended at the end. -/
theorem observePosition_dedup {α : Type*} [LinearOrderedField α] :
    (∀ obs : List (TracePoint α), NoDup2 (runRecorder obs).routeCoordinates) ∧
    (∀ (st : RecState α) (c last : TracePoint α),
      st.lastRouteCoordinate = some last →
      last.latitude = c.latitude → last.longitude = c.longitude →
      observePosition st c = st) ∧
    (∀ (st : RecState α) (c : TracePoint α),
      (∀ last, st.lastRouteCoordinate = some last → ¬ sameLatLon last c) →
      (observePosition st c).routeCoordinates = st.routeCoordinates ++ [c]) := by
  refine ⟨?_, ?_, ?_⟩
  · intro obs
    exact (recInv_foldl obs initRecState recInv_init).2
  · intro st c last hlast hlat hlon
    unfold observePosition
    rw [hlast]
    dsimp only
    rw [if_neg]
    push_neg
    exact ⟨hlon, hlat⟩
  · intro st c hdiff
    unfold observePosition
    cases hst : st.lastRouteCoordinate with
    | none => rfl
    | some last =>
      dsimp only
      rw [if_pos]
      by_contra hcon
      push_neg at hcon
      exact hdiff last hst ⟨hcon.2, hcon.1⟩

/-- Witness for `observePosition_dedup` at concrete rational inputs. -/
theorem observePosition_dedup_witness :
    ((⟨[⟨1, 2, none, none⟩], some ⟨1, 2, none, none⟩, 1⟩ :
        RecState ℚ).lastRouteCoordinate = some ⟨1, 2, none, none⟩ ∧
      observePosition (⟨[⟨1, 2, none, none⟩], some ⟨1, 2, none, none⟩, 1⟩ :
        RecState ℚ) ⟨1, 2, none, none⟩ =
        ⟨[⟨1, 2, none, none⟩], some ⟨1, 2, none, none⟩, 1⟩) ∧
    NoDup2 (runRecorder
      ([⟨1, 2, none, none⟩, ⟨1, 2, none, none⟩, ⟨3, 4, none, none⟩] :
        List (TracePoint ℚ))).routeCoordinates := by
  refine ⟨⟨rfl, ?_⟩, ?_⟩
  · exact observePosition_dedup.2.1 _ _ ⟨1, 2, none, none⟩ rfl rfl rfl
  · exact observePosition_dedup.1 _

end RecorderProofs

section CleanupProofs

variable {α : Type*} [LinearOrderedField α]

theorem resolveMarker_stationName (dist : Coord α → Coord α → α)
    (coords : List (Coord α)) (tts : List String) (m : Marker α) :
    (resolveMarker dist coords tts m).stationName = m.stationName := by
  unfold resolveMarker
  dsimp only
  repeat' split
  all_goals rfl

theorem resolveMarker_markerType (dist : Coord α → Coord α → α)
    (coords : List (Coord α)) (tts : List String) (m : Marker α) :
    (resolveMarker dist coords tts m).markerType = m.markerType := by
  unfold resolveMarker
  dsimp only
  repeat' split
  all_goals rfl

theorem resolveMarker_isTimetableStation (dist : Coord α → Coord α → α)
    (coords : List (Coord α)) (tts : List String) (m : Marker α) :
    (resolveMarker dist coords tts m).isTimetableStation =
      some (match m.stationName with
        | none => false
        | some s => decide (s ∈ tts)) := by
  unfold resolveMarker
  dsimp only
  repeat' split
  all_goals rfl

theorem resolveMarker_platformLength (dist : Coord α → Coord α → α)
    (coords : List (Coord α)) (tts : List String) (m : Marker α) :
    (resolveMarker dist coords tts m).platformLength = m.platformLength := by
  unfold resolveMarker
  dsimp only
  repeat' split
  all_goals rfl

/-- C6 (amended): after `processMarkers` every detection-time bookkeeping
field is removed — including `platformLength`, which is deleted rather than
preserved — while `stationName` and `markerType` survive and the added
`isTimetableStation` flag remains present in the output. -/
theorem processMarker_outputFields (dist : Coord α → Coord α → α)
    (coords : List (Coord α)) (tts : List String) (m : Marker α) :
    (processMarker dist coords tts m).detectedAt = none ∧
    (processMarker dist coords tts m).distanceAheadMeters = none ∧
    (processMarker dist coords tts m).timestamp = none ∧
    (processMarker dist coords tts m).platformLength = none ∧
    (processMarker dist coords tts m).calculationMethod = none ∧
    (processMarker dist coords tts m).onspot_latitude = none ∧
    (processMarker dist coords tts m).onspot_longitude = none ∧
    (processMarker dist coords tts m).onspot_timestamp = none ∧
    (processMarker dist coords tts m).spoton_distance = none ∧
    (processMarker dist coords tts m).stationName = m.stationName ∧
    (processMarker dist coords tts m).markerType = m.markerType ∧
    (processMarker dist coords tts m).isTimetableStation.isSome = true := by
  unfold processMarker cleanupMarker
  refine ⟨rfl, rfl, rfl, rfl, rfl, rfl, rfl, rfl, rfl, ?_, ?_, ?_⟩
  · exact resolveMarker_stationName dist coords tts m
  · exact resolveMarker_markerType dist coords tts m
  · rw [resolveMarker_isTimetableStation dist coords tts m]
    rfl

/-- Concrete marker input refuting C6 as stated: its platform length is
present on input but absent from the processed output, and the processed
output still carries the `isTimetableStation` bookkeeping flag. -/
def mC6 : Marker ℚ :=
  { stationName := some "S", markerType := some "Station",
    platformLength := some 100 }

/-- Counterexample to C6 as stated: for the marker `mC6` carrying
`platformLength = 100`, the processed output drops the platform length
entirely (and keeps an extra `isTimetableStation` field), contradicting
"the optional platform length, when present in the input, is preserved in
the output" and "carries only name, kind, resolved latitude/longitude, and
optional platform length". -/
theorem processMarker_platformLength_dropped :
    mC6.platformLength = some 100 ∧
    (processMarker taxiDist [⟨0, 0⟩] ["S"] mC6).platformLength = none ∧
    (processMarker taxiDist [⟨0, 0⟩] ["S"] mC6).isTimetableStation = some true := by
  refine ⟨rfl, rfl, ?_⟩
  rfl

end CleanupProofs

section ProjectorSumProofs

variable {α : Type*} [LinearOrderedField α]

theorem segmentSum_succ (dist : Coord α → Coord α → α)
    (coords : List (Coord α)) (lo hi : Nat) (h : lo < hi) :
    segmentSum dist coords lo hi =
      dist (coords.getD lo default) (coords.getD (lo + 1) default) +
        segmentSum dist coords (lo + 1) hi := by
  unfold segmentSum
  have h1 : hi - lo = (hi - (lo + 1)) + 1 := by omega
  rw [h1, List.range_succ_eq_map]
  simp only [List.map_cons, List.map_map, List.sum_cons, Nat.add_zero]
  congr 1
  apply congrArg
  apply List.map_congr_left
  intro k _
  have h2 : lo + (k + 1) = lo + 1 + k := by omega
  have h3 : lo + (k + 1) + 1 = lo + 1 + k + 1 := by omega
  rw [Function.comp_apply, h2]

theorem segmentSum_zero (dist : Coord α → Coord α → α)
    (coords : List (Coord α)) (lo hi : Nat) (h : hi ≤ lo) :
    segmentSum dist coords lo hi = 0 := by
  unfold segmentSum
  have : hi - lo = 0 := by omega
  simp [this]

theorem sumSegLoop_eq_segmentSum (dist : Coord α → Coord α → α)
    (coords : List (Coord α)) :
    ∀ (n i stop : Nat) (t : α), stop - i ≤ n →
      sumSegLoop dist coords i stop t = t + segmentSum dist coords i stop := by
  intro n
  induction n with
  | zero =>
    intro i stop t h
    unfold sumSegLoop
    rw [if_neg (by omega), segmentSum_zero dist coords i stop (by omega), add_zero]
  | succ n ih =>
    intro i stop t h
    unfold sumSegLoop
    by_cases hlt : i < stop
    · rw [if_pos hlt, ih (i + 1) stop _ (by omega),
        segmentSum_succ dist coords i stop hlt]
      ring
    · rw [if_neg hlt, segmentSum_zero dist coords i stop (by omega), add_zero]

/-- C2: for a loaded route whose `coordinates` field is present, the
projector returns exactly 0 when the marker's nearest polyline index is at
or behind the live position's, and otherwise the sum of the distances of
every consecutive coordinate pair between the two indices. -/
theorem calculateDistanceAlongRoute_spec (dist : Coord α → Coord α → α)
    (rd : RouteData α) (coords : List (Coord α)) (player marker : Coord α)
    (hc : rd.coordinates = some coords) :
    (findNearestCoordinateIndex dist coords marker ≤
        findNearestCoordinateIndex dist coords player →
      calculateDistanceAlongRoute dist (some rd) player marker = some 0) ∧
    (findNearestCoordinateIndex dist coords player <
        findNearestCoordinateIndex dist coords marker →
      calculateDistanceAlongRoute dist (some rd) player marker =
        some (segmentSum dist coords
          (findNearestCoordinateIndex dist coords player)
          (findNearestCoordinateIndex dist coords marker))) := by
  have hfr : ∀ q : Coord α, findNearestRouteIndex dist (some rd) q =
      (findNearestCoordinateIndex dist coords q : ℤ) := by
    intro q
    unfold findNearestRouteIndex
    dsimp only
    rw [hc]
  unfold calculateDistanceAlongRoute
  dsimp only
  rw [hc]
  dsimp only
  rw [hfr player, hfr marker]
  set p := findNearestCoordinateIndex dist coords player with hp
  set m := findNearestCoordinateIndex dist coords marker with hm
  rw [if_neg (by omega)]
  constructor
  · intro hle
    rw [if_pos (by exact_mod_cast hle)]
  · intro hlt
    rw [if_neg (by push_neg; exact_mod_cast hlt)]
    rw [sumSegLoop_eq_segmentSum dist coords (m - p) ((p : ℤ)).toNat
        ((m : ℤ)).toNat 0 (by simp [Int.toNat_natCast])]
    simp [Int.toNat_natCast]

/-- Witness for `calculateDistanceAlongRoute_spec` on a concrete rational
route (player snaps to index 0, marker to index 2). -/
theorem calculateDistanceAlongRoute_spec_witness :
    calculateDistanceAlongRoute taxiDist
        (some ⟨some [⟨0, 0⟩, ⟨0, 1⟩, ⟨0, 3⟩], none⟩) ⟨0, 0⟩ ⟨0, 3⟩ =
      some (segmentSum taxiDist [⟨0, 0⟩, ⟨0, 1⟩, ⟨0, 3⟩]
        (findNearestCoordinateIndex taxiDist [⟨0, 0⟩, ⟨0, 1⟩, ⟨0, 3⟩] ⟨0, 0⟩)
        (findNearestCoordinateIndex taxiDist [⟨0, 0⟩, ⟨0, 1⟩, ⟨0, 3⟩] ⟨0, 3⟩)) :=
  (calculateDistanceAlongRoute_spec taxiDist
    ⟨some [⟨0, 0⟩, ⟨0, 1⟩, ⟨0, 3⟩], none⟩ [⟨0, 0⟩, ⟨0, 1⟩, ⟨0, 3⟩]
    ⟨0, 0⟩ ⟨0, 3⟩ rfl).2
    (by norm_num [findNearestCoordinateIndex, findNearestAux, ltMin, taxiDist])

end ProjectorSumProofs

section NearestIndexProofs

variable {α : Type*} [LinearOrderedField α]

theorem findNearestAux_invariant (dist : Coord α → Coord α → α)
    (target : Coord α) :
    ∀ (tl : List (Coord α)) (coords : List (Coord α)) (i best : Nat) (md : α),
      i + tl.length = coords.length →
      (∀ k, k < tl.length → tl.getD k default = coords.getD (i + k) default) →
      best < i →
      md = dist target (coords.getD best default) →
      (∀ j, j < i → md ≤ dist target (coords.getD j default)) →
      (∀ j, j < best → md < dist target (coords.getD j default)) →
      findNearestAux dist target tl i (some md) best < coords.length ∧
        (∀ j, j < coords.length →
          dist target (coords.getD
            (findNearestAux dist target tl i (some md) best) default) ≤
          dist target (coords.getD j default)) ∧
        (∀ j, j < findNearestAux dist target tl i (some md) best →
          dist target (coords.getD
            (findNearestAux dist target tl i (some md) best) default) <
          dist target (coords.getD j default)) := by
  intro tl
  induction tl with
  | nil =>
    intro coords i best md hlen hpt hbi hmd hmin hstrict
    simp only [findNearestAux]
    simp only [List.length_nil, Nat.add_zero] at hlen
    refine ⟨by omega, ?_, ?_⟩
    · intro j hj
      rw [← hmd]
      exact hmin j (by omega)
    · intro j hj
      rw [← hmd]
      exact hstrict j hj
  | cons c rest ih =>
    intro coords i best md hlen hpt hbi hmd hmin hstrict
    have hc : c = coords.getD i default := by
      have := hpt 0 (by simp)
      simpa using this
    have hptr : ∀ k, k < rest.length →
        rest.getD k default = coords.getD (i + 1 + k) default := by
      intro k hk
      have := hpt (k + 1) (by simp; omega)
      simpa [Nat.add_assoc, Nat.add_comm 1 k] using this
    have hlenr : i + 1 + rest.length = coords.length := by
      simp only [List.length_cons] at hlen
      omega
    by_cases hd : dist target c < md
    · have hlt : ltMin (dist target c) (some md) = true := by
        simp [ltMin, hd]
      simp only [findNearestAux, hlt, if_true]
      exact ih coords (i + 1) i (dist target c) hlenr hptr (by omega)
        (by rw [hc])
        (by
          intro j hj
          rcases Nat.lt_succ_iff_lt_or_eq.1 hj with hji | hje
          · exact le_of_lt (lt_of_lt_of_le hd (hmin j hji))
          · subst hje; rw [hc])
        (by
          intro j hj
          exact lt_of_lt_of_le hd (hmin j hj))
    · have hlt : ltMin (dist target c) (some md) = false := by
        simp [ltMin, hd]
      simp only [findNearestAux, hlt, Bool.false_eq_true, if_false]
      exact ih coords (i + 1) best md hlenr hptr (by omega) hmd
        (by
          intro j hj
          rcases Nat.lt_succ_iff_lt_or_eq.1 hj with hji | hje
          · exact hmin j hji
          · subst hje; rw [← hc]; exact not_lt.1 hd)
        hstrict

/-- C7: for every non-empty polyline and query point,
`findNearestCoordinateIndex` returns an in-range index whose distance to
the query attains the minimum over all vertices, every earlier index has a
strictly larger distance (strict improvement required, so ties go to the
earliest index), and the result is the unique index with those two
properties — so any two calls on the same inputs agree. -/
theorem findNearestCoordinateIndex_spec (dist : Coord α → Coord α → α)
    (coords : List (Coord α)) (target : Coord α) (h : coords ≠ []) :
    findNearestCoordinateIndex dist coords target < coords.length ∧
    (∀ j, j < coords.length →
      dist target (coords.getD
        (findNearestCoordinateIndex dist coords target) default) ≤
      dist target (coords.getD j default)) ∧
    (∀ j, j < findNearestCoordinateIndex dist coords target →
      dist target (coords.getD
        (findNearestCoordinateIndex dist coords target) default) <
      dist target (coords.getD j default)) ∧
    (∀ k, k < coords.length →
      (∀ j, j < coords.length →
        dist target (coords.getD k default) ≤
          dist target (coords.getD j default)) →
      (∀ j, j < k →
        dist target (coords.getD k default) <
          dist target (coords.getD j default)) →
      k = findNearestCoordinateIndex dist coords target) := by
  obtain ⟨c, rest, rfl⟩ : ∃ c rest, coords = c :: rest := by
    cases coords with
    | nil => exact absurd rfl h
    | cons c rest => exact ⟨c, rest, rfl⟩
  have hstep : findNearestCoordinateIndex dist (c :: rest) target =
      findNearestAux dist target rest 1 (some (dist target c)) 0 := by
    simp [findNearestCoordinateIndex, findNearestAux, ltMin]
  have hinv := findNearestAux_invariant dist target rest (c :: rest) 1 0
    (dist target c)
    (by simp [Nat.add_comm])
    (by
      intro k hk
      simp [List.getD_cons_succ, Nat.add_comm 1 k])
    (by omega)
    (by simp)
    (by
      intro j hj
      interval_cases j
      simp)
    (by omega)
  rw [hstep]
  obtain ⟨h1, h2, h3⟩ := hinv
  refine ⟨h1, h2, h3, ?_⟩
  intro k hk hkmin hkstrict
  by_contra hne
  rcases lt_or_gt_of_ne hne with hlt | hgt
  · exact absurd (hkmin _ h1) (not_le.2 (h3 k hlt))
  · exact absurd (h2 k hk) (not_le.2 (hkstrict _ hgt))

/-- Witness for `findNearestCoordinateIndex_spec` on a concrete rational
polyline with a tie between indices 1 and 2 (resolved to 1, the earliest). -/
theorem findNearestCoordinateIndex_spec_witness :
    findNearestCoordinateIndex taxiDist [⟨0, 0⟩, ⟨0, 1⟩, ⟨0, 1⟩] ⟨0, 1⟩ < 3 ∧
    findNearestCoordinateIndex taxiDist [⟨0, 0⟩, ⟨0, 1⟩, ⟨0, 1⟩] ⟨0, 1⟩ = 1 :=
  ⟨(findNearestCoordinateIndex_spec taxiDist [⟨0, 0⟩, ⟨0, 1⟩, ⟨0, 1⟩] ⟨0, 1⟩
      (by simp)).1,
    by norm_num [findNearestCoordinateIndex, findNearestAux, ltMin, taxiDist]⟩

end NearestIndexProofs

section TimetableProofs

/-- A stop whose scheduled times (when present) are already at or before
the current second count `c` — the reading of "the vehicle is past this
stop" for an ordered timetable. -/
def Passed (c : Nat) (s : Stop) : Prop :=
  (∀ v, s.departure = some v → v ≤ c) ∧ (∀ v, s.arrival = some v → v ≤ c)

theorem jsLtTime_false_of_le (c : Nat) (t : Option Nat)
    (h : ∀ v, t = some v → v ≤ c) : jsLtTime c t = false := by
  cases t with
  | none => simp [jsLtTime]
  | some v => simp [jsLtTime, Nat.not_lt.2 (h v rfl)]

theorem jsGeTime_true_of_le (c : Nat) (t : Option Nat)
    (h : ∀ v, t = some v → v ≤ c) : jsGeTime c t = true := by
  cases t with
  | none => simp [jsGeTime]
  | some v => simp [jsGeTime, h v rfl]

theorem ttLoop_cons_skip (c : Nat) (first : Bool) (s next : Stop)
    (rest : List Stop) (hs : Passed c s) (hn : Passed c next) :
    ttLoop c first (s :: next :: rest) = ttLoop c false (next :: rest) := by
  have hd : jsLtTime c s.departure = false := jsLtTime_false_of_le c _ hs.1
  have ha : jsLtTime c next.arrival = false := jsLtTime_false_of_le c _ hn.2
  have hg : jsGeTime c next.arrival = true := jsGeTime_true_of_le c _ hn.2
  have hnd : jsLtTime c next.departure = false := jsLtTime_false_of_le c _ hn.1
  simp [ttLoop, hd, ha, hg, hnd]

theorem ttLoop_first_irrel (c : Nat) (s : Stop) (l : List Stop)
    (hd : jsLtTime c s.departure = false) :
    ttLoop c true (s :: l) = ttLoop c false (s :: l) := by
  cases l with
  | nil => simp [ttLoop, hd]
  | cons t l2 => simp [ttLoop, hd]

theorem ttLoop_skip_passed (c : Nat) :
    ∀ (pre : List Stop) (first : Bool) (s t : Stop) (rest : List Stop),
      (∀ x ∈ pre, Passed c x) → Passed c s →
      ttLoop c first (pre ++ s :: t :: rest) = ttLoop c false (s :: t :: rest) := by
  intro pre
  induction pre with
  | nil =>
    intro first s t rest _ hs
    cases first with
    | false => rfl
    | true => exact ttLoop_first_irrel c s _ (jsLtTime_false_of_le c _ hs.1)
  | cons p pre2 ih =>
    intro first s t rest hpre hs
    have hp : Passed c p := hpre p (by simp)
    have hpre2 : ∀ x ∈ pre2, Passed c x := fun x hx => hpre x (by simp [hx])
    cases pre2 with
    | nil =>
      simp only [List.cons_append, List.nil_append]
      exact ttLoop_cons_skip c first p s (t :: rest) hp hs
    | cons q pre3 =>
      have hq : Passed c q := hpre2 q (by simp)
      rw [List.cons_append, List.cons_append]
      rw [ttLoop_cons_skip c first p q _ hp hq]
      rw [← List.cons_append]
      exact ih false s t rest hpre2 hs

theorem ttLoop_all_passed (c : Nat) :
    ∀ (l : List Stop) (hne : l ≠ []) (first : Bool),
      (∀ x ∈ l, Passed c x) →
      ttLoop c first l = lastDisplay (l.getLast hne) := by
  intro l
  induction l with
  | nil => intro hne; exact absurd rfl hne
  | cons s rest ih =>
    intro hne first hall
    have hs : Passed c s := hall s (by simp)
    cases rest with
    | nil =>
      simp [ttLoop, jsLtTime_false_of_le c _ hs.1, List.getLast_singleton]
    | cons t rest2 =>
      rw [ttLoop_cons_skip c first s t rest2 hs (hall t (by simp))]
      rw [ih (by simp) false (fun x hx => hall x (by simp [hx]))]
      exact congrArg lastDisplay (List.getLast_cons (by simp)).symm

theorem ttLoop_ne_allNull (c : Nat) :
    ∀ (l : List Stop) (first : Bool), l ≠ [] → ttLoop c first l ≠ allNull := by
  intro l
  induction l with
  | nil => intro first hne; exact absurd rfl hne
  | cons s rest ih =>
    intro first _
    cases rest with
    | nil =>
      simp only [ttLoop]
      split
      · simp [depDisplay, allNull]
      · simp [lastDisplay, allNull]
    | cons t rest2 =>
      simp only [ttLoop]
      split
      · simp [depDisplay, allNull]
      · split
        · simp [depDisplay, allNull]
        · split
          · simp [arrDisplay, allNull]
          · split
            · split
              · simp [depDisplay, allNull]
              · exact ih false (by simp)
            · exact ih false (by simp)

theorem getTimetableDisplay_of_ne_nil (l : List Stop) (c : Nat) (h : l ≠ []) :
    getTimetableDisplay l (some c) = ttLoop c true l := by
  cases l with
  | nil => exact absurd rfl h
  | cons s rest => rfl

/-- C10: for a non-empty timetable and any extractable current time,
`getTimetableDisplay` never returns the all-`null` display (the last-stop
branch returns unconditionally, so the post-loop return is unreachable);
and once every stop's scheduled times are at or before the current time
(in particular at or after the last stop's arrival in an ordered
timetable), it keeps returning the last stop's arrival display with
`showDistance = true`. -/
theorem getTimetableDisplay_never_allNull :
    (∀ (stops : List Stop) (c : Nat), stops ≠ [] →
      getTimetableDisplay stops (some c) ≠ allNull) ∧
    (∀ (stops : List Stop) (c : Nat) (hne : stops ≠ []),
      (∀ s ∈ stops, Passed c s) →
      getTimetableDisplay stops (some c) = lastDisplay (stops.getLast hne)) := by
  constructor
  · intro stops c hne
    rw [getTimetableDisplay_of_ne_nil stops c hne]
    exact ttLoop_ne_allNull c stops true hne
  · intro stops c hne hall
    rw [getTimetableDisplay_of_ne_nil stops c hne]
    exact ttLoop_all_passed c stops hne true hall

/-- Witness for `getTimetableDisplay_never_allNull` on a concrete one-stop
timetable, before and long after its times. -/
theorem getTimetableDisplay_never_allNull_witness :
    getTimetableDisplay [⟨some "A", some 100, some 200, some "a"⟩]
        (some 50) ≠ allNull ∧
    getTimetableDisplay [⟨some "A", some 100, some 200, some "a"⟩]
        (some 999) =
      lastDisplay (([⟨some "A", some 100, some 200, some "a"⟩] :
        List Stop).getLast (by simp)) :=
  ⟨getTimetableDisplay_never_allNull.1 _ 50 (by simp),
    getTimetableDisplay_never_allNull.2 _ 999 (by simp)
      (by
        intro s hs
        simp only [List.mem_singleton] at hs
        subst hs
        constructor <;> (intro v hv; simp only [Option.some.injEq] at hv; omega))⟩

/-- C8: before the first stop's departure the display is that departure
with the `DEPARTURE` label, no target and no distance; between a passed
stop's departure and the next stop's arrival (all earlier stops being
passed, as in an ordered timetable) the display is the next stop's arrival,
destination and target with `showDistance = true`; and the two-stop
08:00/09:00 scenario evaluates accordingly at 07:30 and 08:30. -/
theorem getTimetableDisplay_spec :
    (∀ (s : Stop) (rest : List Stop) (c d : Nat),
      s.departure = some d → c < d →
      getTimetableDisplay (s :: rest) (some c) =
        ⟨some d, some "DEPARTURE", none, false⟩) ∧
    (∀ (pre : List Stop) (s t : Stop) (rest : List Stop) (c di a : Nat),
      (∀ x ∈ pre, Passed c x) → Passed c s →
      s.departure = some di → di ≤ c →
      t.arrival = some a → c < a →
      getTimetableDisplay (pre ++ s :: t :: rest) (some c) =
        ⟨t.arrival, t.destination, t.apiName, true⟩) ∧
    (getTimetableDisplay
        [⟨some "Origin", some 28500, some 28800, some "ST1"⟩,
         ⟨some "Terminus", some 32400, none, some "ST2"⟩] (some 27000) =
      ⟨some 28800, some "DEPARTURE", none, false⟩) ∧
    (getTimetableDisplay
        [⟨some "Origin", some 28500, some 28800, some "ST1"⟩,
         ⟨some "Terminus", some 32400, none, some "ST2"⟩] (some 30600) =
      ⟨some 32400, some "Terminus", some "ST2", true⟩) := by
  refine ⟨?_, ?_, by decide, by decide⟩
  · intro s rest c d hdep hc
    have hlt : jsLtTime c (some d) = true := by
      simp [jsLtTime, hc]
    cases rest with
    | nil => simp [getTimetableDisplay, ttLoop, hdep, hlt, depDisplay]
    | cons t rest2 => simp [getTimetableDisplay, ttLoop, hdep, hlt, depDisplay]
  · intro pre s t rest c di a hpre hs hdep hdi harr hc
    rw [getTimetableDisplay_of_ne_nil _ c (by simp)]
    rw [ttLoop_skip_passed c pre true s t rest hpre hs]
    have h1 : jsLtTime c s.departure = false := jsLtTime_false_of_le c _ hs.1
    have h2 : jsGeTime c s.departure = true := jsGeTime_true_of_le c _ hs.1
    have h3 : jsLtTime c t.arrival = true := by
      simp [jsLtTime, harr, hc]
    simp [ttLoop, h1, h2, h3, arrDisplay]

/-- Witness for `getTimetableDisplay_spec` on concrete one- and two-stop
timetables. -/
theorem getTimetableDisplay_spec_witness :
    getTimetableDisplay [⟨some "B", some 15, some 20, some "b"⟩] (some 10) =
      ⟨some 20, some "DEPARTURE", none, false⟩ ∧
    getTimetableDisplay
        ([] ++ (⟨some "B", some 15, some 20, some "b"⟩ ::
          ⟨some "C", some 60, some 70, some "cc"⟩ :: [])) (some 30) =
      ⟨some 60, some "C", some "cc", true⟩ :=
  ⟨getTimetableDisplay_spec.1 _ [] 10 20 rfl (by omega),
    getTimetableDisplay_spec.2.1 [] _ _ [] 30 20 60 (by simp)
      (by
        constructor <;>
          (intro v hv; simp only [Option.some.injEq] at hv; omega))
      rfl (by omega) rfl (by omega)⟩

end TimetableProofs

section TickProofs

variable {α : Type*} [LinearOrderedField α]

theorem markerArrayLookup_none [FloorRing α] (td : TrackData α) (target : String)
    (hm : ∀ it ∈ td.markers.getD [], it.stationName = some target →
      it.distanceToStationCM = none) :
    markerArrayLookup td target none = none := by
  unfold markerArrayLookup
  cases hfind : (td.markers.getD []).find?
      (fun it => it.stationName = some target) with
  | none => rfl
  | some it =>
    have hmem := List.mem_of_find?_eq_some hfind
    have hname : it.stationName = some target := by
      simpa using List.find?_some hfind
    dsimp only
    rw [hm it hmem hname]

theorem extractTargetDistance_none [FloorRing α] (td : TrackData α) (target : String)
    (hs : ∀ it ∈ td.stations.getD [], it.stationName = some target →
      it.distanceToStationCM = none)
    (hm : ∀ it ∈ td.markers.getD [], it.stationName = some target →
      it.distanceToStationCM = none) :
    extractTargetDistance td target none = none := by
  unfold extractTargetDistance
  cases hfind : (td.stations.getD []).find?
      (fun it => it.stationName = some target) with
  | none => exact markerArrayLookup_none td target hm
  | some it =>
    have hmem := List.mem_of_find?_eq_some hfind
    have hname : it.stationName = some target := by
      simpa using List.find?_some hfind
    dsimp only
    rw [hs it hmem hname]
    exact markerArrayLookup_none td target hm

/-- C9: when the computed target differs from the previous tick's target,
the tick handler's result does not depend on the previously cached
distance (it is cleared before any distance for the new target is
recorded), and if the snapshot offers no distance for the new target both
the emitted `distanceToStation` and the new cached distance are `null`. -/
theorem tickDistanceUpdate_invalidation [FloorRing α] :
    (∀ (d1 d2 : Option ℤ) (t : Option String) (display : TDisplay)
        (td : Option (TrackData α)),
      display.targetApiName ≠ t →
      tickDistanceUpdate (⟨d1, t⟩ : TickState) display td =
        tickDistanceUpdate (⟨d2, t⟩ : TickState) display td) ∧
    (∀ (st : TickState) (display : TDisplay) (td : Option (TrackData α)),
      display.targetApiName ≠ st.lastTargetApiName →
      (∀ tdv, td = some tdv →
        (∀ it ∈ tdv.stations.getD [],
          it.stationName = some (display.targetApiName.getD "") →
          it.distanceToStationCM = none) ∧
        (∀ it ∈ tdv.markers.getD [],
          it.stationName = some (display.targetApiName.getD "") →
          it.distanceToStationCM = none)) →
      (tickDistanceUpdate st display td).2 = none ∧
      (tickDistanceUpdate st display td).1.lastDistanceToStation = none) := by
  constructor
  · intro d1 d2 t display td hchanged
    unfold tickDistanceUpdate
    rw [if_pos hchanged, if_pos hchanged]
  · intro st display td hchanged hnone
    unfold tickDistanceUpdate
    rw [if_pos hchanged]
    dsimp only
    by_cases hstr : strTruthy display.targetApiName = true
    · rw [if_pos hstr]
      cases td with
      | none =>
        simp
      | some tdv =>
        obtain ⟨hs, hm⟩ := hnone tdv rfl
        dsimp only
        rw [extractTargetDistance_none tdv _ hs hm]
        simp
    · rw [if_neg hstr]
      simp

/-- Witness for `tickDistanceUpdate_invalidation`: target switches from
`OLD` to `NEW` while the snapshot only carries a distance for another
station, so the output and the cache are both `null`. -/
theorem tickDistanceUpdate_invalidation_witness :
    (tickDistanceUpdate (⟨some 555, some "OLD"⟩ : TickState)
        ⟨some 1, some "L", some "NEW", true⟩
        (some (⟨some [⟨some "OTHER", some 100⟩], none⟩ : TrackData ℚ))).2 =
      none ∧
    (tickDistanceUpdate (⟨some 555, some "OLD"⟩ : TickState)
        ⟨some 1, some "L", some "NEW", true⟩
        (some (⟨some [⟨some "OTHER", some 100⟩], none⟩ :
          TrackData ℚ))).1.lastDistanceToStation = none :=
  tickDistanceUpdate_invalidation.2 ⟨some 555, some "OLD"⟩
    ⟨some 1, some "L", some "NEW", true⟩ _
    (by simp)
    (by
      intro tdv h
      injection h with h
      subst h
      constructor
      · intro it hit hname
        simp only [Option.getD_some, List.mem_singleton] at hit hname ⊢
        subst hit
        simp at hname
      · intro it hit hname
        simp at hit)

/-- C5 (amended): the projector returns `null` when no route is loaded or
the loaded route's `coordinates` field is absent, and in the latter case
the per-tick distance-to-station stays `null`; when the target marker's
latitude (after the `latitude || detectedAt?.latitude` fallback) is not
truthy, no distance is computed and the field stays `null`.  (A
present-but-empty coordinate list instead yields 0 — see the
counterexample.) -/
theorem projector_unavailable [FloorRing α] :
    (∀ (dist : Coord α → Coord α → α) (p m : Coord α),
      calculateDistanceAlongRoute dist none p m = none) ∧
    (∀ (dist : Coord α → Coord α → α) (rd : RouteData α) (p m : Coord α),
      rd.coordinates = none →
      calculateDistanceAlongRoute dist (some rd) p m = none) ∧
    (∀ (dist : Coord α → Coord α → α) (rd : RouteData α)
        (target : Option String) (pos : Coord α),
      rd.coordinates = none →
      streamDistance dist (some rd) target (some pos) = none) ∧
    (∀ (dist : Coord α → Coord α → α) (route : Option (RouteData α))
        (target : Option String) (pos : Coord α) (nm : NextMarker α),
      getNextTimetableMarker route target = some nm →
      numTruthy nm.latitude = false →
      streamDistance dist route target (some pos) = none) := by
  have hcnone : ∀ (dist : Coord α → Coord α → α) (rd : RouteData α)
      (p m : Coord α), rd.coordinates = none →
      calculateDistanceAlongRoute dist (some rd) p m = none := by
    intro dist rd p m hc
    unfold calculateDistanceAlongRoute
    dsimp only
    rw [hc]
  refine ⟨fun dist p m => rfl, hcnone, ?_, ?_⟩
  · intro dist rd target pos hc
    unfold streamDistance
    dsimp only
    by_cases hstr : strTruthy target = true
    · rw [if_neg (by simp [hstr])]
      cases hnm : getNextTimetableMarker (some rd) target with
      | none => rfl
      | some nm =>
        dsimp only
        by_cases htru : (numTruthy nm.latitude && numTruthy nm.longitude) = true
        · rw [if_pos htru, hcnone dist rd pos _ hc]
        · rw [if_neg htru]
    · rw [if_pos (by simp [hstr])]
  · intro dist route target pos nm hnm hlat
    have hstr : strTruthy target = true := by
      by_contra hstr
      unfold getNextTimetableMarker at hnm
      rw [if_pos hstr] at hnm
      exact Option.noConfusion hnm
    unfold streamDistance
    dsimp only
    rw [if_neg (by simp [hstr]), hnm]
    dsimp only
    rw [if_neg (by simp [hlat])]

/-- Witness for `projector_unavailable`: a loaded rational route without a
`coordinates` field yields a `null` projection and a `null` stream
distance, and a found marker whose resolved and detection latitudes are
both absent yields a `null` stream distance. -/
theorem projector_unavailable_witness :
    calculateDistanceAlongRoute taxiDist
        (some (⟨none, none⟩ : RouteData ℚ)) ⟨0, 0⟩ ⟨1, 1⟩ = none ∧
    streamDistance taxiDist
      (some (⟨none, some [{ stationName := some "S" }]⟩ : RouteData ℚ))
      (some "S") (some ⟨0, 0⟩) = none :=
  ⟨(projector_unavailable.2.1) taxiDist ⟨none, none⟩ ⟨0, 0⟩ ⟨1, 1⟩ rfl,
    (projector_unavailable.2.2.2) taxiDist
      (some ⟨none, some [{ stationName := some "S" }]⟩) (some "S") ⟨0, 0⟩
      ⟨some "S", none, none, none⟩ rfl rfl⟩

/-- A rational marker with no resolved position (its `latitude` and
`longitude` fields are absent) that still carries its raw detection
position. -/
def mC5 : Marker ℚ := { stationName := some "S", detectedAt := some ⟨2, 3⟩ }

/-- The rational route used for the detection-fallback counterexample:
two coordinates and the unresolved marker `mC5`. -/
def rdC5 : RouteData ℚ := ⟨some [⟨0, 0⟩, ⟨0, 1⟩], some [mC5]⟩

theorem getNextTimetableMarker_rdC5 :
    getNextTimetableMarker (some rdC5) (some "S") =
      some ⟨some "S", some 2, some 3, none⟩ := by
  unfold getNextTimetableMarker rdC5 mC5
  rw [if_neg (by simp [strTruthy])]
  simp [List.find?, numOrElse, numTruthy]

theorem calculateDistanceAlongRoute_rdC5 :
    calculateDistanceAlongRoute taxiDist (some rdC5) ⟨0, 0⟩ ⟨2, 3⟩ =
      some 1 := by
  have hfr0 : findNearestRouteIndex taxiDist (some rdC5) ⟨0, 0⟩ = 0 := by
    unfold findNearestRouteIndex rdC5
    dsimp only
    norm_num [findNearestCoordinateIndex, findNearestAux, ltMin, taxiDist]
  have hfr1 : findNearestRouteIndex taxiDist (some rdC5) ⟨2, 3⟩ = 1 := by
    unfold findNearestRouteIndex rdC5
    dsimp only
    norm_num [findNearestCoordinateIndex, findNearestAux, ltMin, taxiDist]
  unfold calculateDistanceAlongRoute
  dsimp only
  rw [show rdC5.coordinates = some [⟨0, 0⟩, ⟨0, 1⟩] from rfl]
  dsimp only
  rw [hfr0, hfr1]
  rw [if_neg (by norm_num)]
  rw [if_neg (by norm_num)]
  simp only [Int.toNat_zero, Int.toNat_one]
  unfold sumSegLoop
  rw [if_pos (by norm_num)]
  unfold sumSegLoop
  rw [if_neg (by norm_num)]
  norm_num [taxiDist]

theorem streamDistance_detectionFallback :
    streamDistance taxiDist (some rdC5) (some "S") (some ⟨0, 0⟩) = some 1 := by
  unfold streamDistance
  dsimp only
  rw [if_neg (by simp [strTruthy])]
  rw [getNextTimetableMarker_rdC5]
  dsimp only
  rw [if_pos (by norm_num [numTruthy])]
  simp only [Option.getD_some]
  rw [calculateDistanceAlongRoute_rdC5]
  dsimp only
  unfold jsRound
  rw [show ((1 : ℚ) + 1 / 2) = 3 / 2 by norm_num]
  norm_num [Int.floor_eq_iff]

/-- Counterexample to C5 as stated, at two concrete inputs.  First, a
loaded route whose coordinate list is present but empty is "a route
recording with no polyline", yet the projector returns the number 0 (both
nearest indices degenerate to 0), not `null`.  Second, the marker `mC5`
has no resolved position (`latitude` and `longitude` absent), yet on the
route `rdC5` the per-tick distance-to-station is the number 1, not `null`:
`getNextTimetableMarker` falls back to the marker's raw detection
position. -/
theorem calculateDistanceAlongRoute_emptyPolyline :
    (calculateDistanceAlongRoute taxiDist
        (some (⟨some [], none⟩ : RouteData ℚ)) ⟨0, 0⟩ ⟨1, 1⟩ = some 0 ∧
      some (0 : ℚ) ≠ (none : Option ℚ)) ∧
    (mC5.latitude = none ∧ mC5.longitude = none ∧
      streamDistance taxiDist (some rdC5) (some "S") (some ⟨0, 0⟩) = some 1 ∧
      some (1 : ℤ) ≠ (none : Option ℤ)) := by
  refine ⟨⟨rfl, by simp⟩, rfl, rfl, streamDistance_detectionFallback, by simp⟩

end TickProofs

section ResolverPriorityProofs

variable {α : Type*} [LinearOrderedField α]

/-- C3 (amended): the resolver prefers the on-spot method whenever the
on-spot latitude and longitude are truthy (present and non-zero) and the
on-spot distance is present: the final position is the walk-forward result
anchored at the on-spot position with the on-spot distance, tagged
`onspot` (or the error path when the polyline is empty); the detection
method is not consulted. -/
theorem resolveMarker_onspot_priority (dist : Coord α → Coord α → α)
    (coords : List (Coord α)) (tts : List String) (m : Marker α)
    (la lo dd : α)
    (hla : m.onspot_latitude = some la) (hla0 : la ≠ 0)
    (hlo : m.onspot_longitude = some lo) (hlo0 : lo ≠ 0)
    (hdd : m.spoton_distance = some dd) :
    (∀ p, followRoutePath dist coords
        (findNearestCoordinateIndex dist coords ⟨la, lo⟩) dd = some p →
      (resolveMarker dist coords tts m).latitude = some p.latitude ∧
      (resolveMarker dist coords tts m).longitude = some p.longitude ∧
      (resolveMarker dist coords tts m).calculationMethod = some "onspot") ∧
    (followRoutePath dist coords
        (findNearestCoordinateIndex dist coords ⟨la, lo⟩) dd = none →
      (resolveMarker dist coords tts m).calculationMethod = some "error") := by
  have hcond : (numTruthy m.onspot_latitude && numTruthy m.onspot_longitude &&
      m.spoton_distance.isSome) = true := by
    rw [hla, hlo, hdd]
    simp [numTruthy, hla0, hlo0]
  unfold resolveMarker
  dsimp only
  rw [hla, hlo, hdd] at hcond ⊢
  simp only [Option.getD_some]
  rw [if_pos hcond]
  constructor
  · intro p hp
    rw [hp]
    exact ⟨rfl, rfl, rfl⟩
  · intro hp
    rw [hp]

/-- A marker over the real field carrying complete on-spot data whose
on-spot latitude is `0` (a point on the equator) as well as complete
detection data. -/
def mC3R : Marker ℝ :=
  { stationName := some "S", onspot_latitude := some 0,
    onspot_longitude := some 1, spoton_distance := some 5,
    detectedAt := some ⟨1, 1⟩, distanceAheadMeters := some 7 }

/-- A rational variant of `mC3R` on which the two methods produce visibly
different positions. -/
def mC3Q : Marker ℚ :=
  { stationName := some "S", onspot_latitude := some 0,
    onspot_longitude := some 5, spoton_distance := some 0,
    detectedAt := some ⟨1, 1⟩, distanceAheadMeters := some (1 / 2) }

/-- The polyline for the rational counterexample computation. -/
def coordsC3 : List (Coord ℚ) := [⟨1, 1⟩, ⟨1, 2⟩]

theorem followRoutePath_detC3Q :
    followRoutePath taxiDist [⟨1, 1⟩, ⟨1, 2⟩]
        (findNearestCoordinateIndex taxiDist [⟨1, 1⟩, ⟨1, 2⟩] ⟨1, 1⟩)
        (1 / 2 : ℚ) = some ⟨1, 3 / 2⟩ := by
  rw [show findNearestCoordinateIndex taxiDist [⟨1, 1⟩, ⟨1, 2⟩] ⟨1, 1⟩ = 0 from by
    norm_num [findNearestCoordinateIndex, findNearestAux, ltMin, taxiDist]]
  unfold followRoutePath
  rw [if_neg (by norm_num)]
  unfold followAux
  rw [dif_pos (by norm_num)]
  dsimp only [List.getD_cons_zero, List.getD_cons_succ]
  rw [if_pos (by norm_num [taxiDist])]
  norm_num [interpolate, taxiDist]

theorem followRoutePath_spotC3Q :
    followRoutePath taxiDist coordsC3
        (findNearestCoordinateIndex taxiDist coordsC3 ⟨0, 5⟩) (0 : ℚ) =
      some ⟨1, 2⟩ := by
  unfold coordsC3
  rw [show findNearestCoordinateIndex taxiDist [⟨1, 1⟩, ⟨1, 2⟩] ⟨0, 5⟩ = 1 from by
    norm_num [findNearestCoordinateIndex, findNearestAux, ltMin, taxiDist]]
  unfold followRoutePath
  rw [if_pos (by norm_num)]
  rfl

/-- Counterexample to C3 as stated: a marker carrying complete on-spot and
detection data whose on-spot latitude is `0` is resolved by the detection
method (JavaScript truthiness treats latitude 0 as absent) — under the
actual Haversine distance the processing-method tag is `detectedAt`, and
in the rational instantiation the resolved longitude `3/2` differs from
the on-spot-based walk result, whose longitude is `2`. -/
theorem resolveMarker_onspot_zero_latitude :
    (resolveMarker havDist [⟨1, 1⟩] [] mC3R).calculationMethod =
      some "detectedAt" ∧
    (resolveMarker taxiDist coordsC3 [] mC3Q).longitude = some (3 / 2) ∧
    followRoutePath taxiDist coordsC3
        (findNearestCoordinateIndex taxiDist coordsC3 ⟨0, 5⟩) (0 : ℚ) =
      some ⟨1, 2⟩ ∧
    (resolveMarker taxiDist coordsC3 [] mC3Q).longitude ≠ some (2 : ℚ) := by
  have hR : (resolveMarker havDist [⟨1, 1⟩] [] mC3R).calculationMethod =
      some "detectedAt" := by
    unfold resolveMarker mC3R
    dsimp only
    rw [if_neg (by simp [numTruthy])]
    rw [if_pos (by simp [numTruthy])]
    simp only [Option.getD_some]
    rw [show followRoutePath havDist [⟨1, 1⟩]
        (findNearestCoordinateIndex havDist [⟨1, 1⟩] ⟨1, 1⟩) 7 =
        some ⟨1, 1⟩ from by
      unfold followRoutePath
      rw [if_pos (by simp)]
      rfl]
  have hQpos : (resolveMarker taxiDist coordsC3 [] mC3Q).longitude =
      some (3 / 2) := by
    unfold resolveMarker mC3Q coordsC3
    dsimp only
    rw [if_neg (by simp [numTruthy])]
    rw [if_pos (by norm_num [numTruthy])]
    simp only [Option.getD_some]
    rw [followRoutePath_detC3Q]
  refine ⟨hR, hQpos, followRoutePath_spotC3Q, ?_⟩
  rw [hQpos]
  norm_num

/-- Witness for `resolveMarker_onspot_priority` on a concrete rational
marker with truthy on-spot fields. -/
theorem resolveMarker_onspot_priority_witness :
    (resolveMarker taxiDist [⟨1, 1⟩] []
        { stationName := some "W", onspot_latitude := some 1,
          onspot_longitude := some 1, spoton_distance := some 0,
          detectedAt := some ⟨2, 2⟩,
          distanceAheadMeters := some 9 }).calculationMethod =
      some "onspot" :=
  ((resolveMarker_onspot_priority taxiDist [⟨1, 1⟩] []
      { stationName := some "W", onspot_latitude := some 1,
        onspot_longitude := some 1, spoton_distance := some 0,
        detectedAt := some ⟨2, 2⟩, distanceAheadMeters := some 9 }
      1 1 0 rfl (by norm_num) rfl (by norm_num) rfl).1 ⟨1, 1⟩
    (by
      unfold followRoutePath
      rw [if_pos (by simp)]
      rfl)).2.2

end ResolverPriorityProofs

section WalkForwardProofs

variable {α : Type*} [LinearOrderedField α]

theorem walkAccum_eq_followAux (dist : Coord α → Coord α → α)
    (coords : List (Coord α)) :
    ∀ (n i : Nat) (acc d : α), coords.length - i ≤ n → acc < d →
      walkAccum dist coords i acc d = followAux dist coords i (d - acc) := by
  intro n
  induction n with
  | zero =>
    intro i acc d hn hacc
    have h1 : ¬ i < coords.length - 1 := by omega
    unfold walkAccum followAux
    rw [dif_neg h1, dif_neg (fun hh => h1 hh.1)]
  | succ n ih =>
    intro i acc d hn hacc
    unfold walkAccum followAux
    by_cases h1 : i < coords.length - 1
    · rw [dif_pos h1, dif_pos ⟨h1, by linarith⟩]
      dsimp only
      by_cases h2 : d ≤ acc + dist (coords.getD i default)
          (coords.getD (i + 1) default)
      · rw [if_pos h2, if_pos (by linarith)]
      · rw [if_neg h2, if_neg (by
          intro hcon
          exact h2 (by linarith))]
        rw [ih (i + 1)
          (acc + dist (coords.getD i default) (coords.getD (i + 1) default))
          d (by omega) (by linarith [not_le.1 h2])]
        congr 1
        ring
    · rw [dif_neg h1, dif_neg (fun hh => h1 hh.1)]

end WalkForwardProofs

section ScenarioProofs

/-- The three equator trace points of the specification scenario:
(0, 0), (0, 0.001), (0, 0.002). -/
noncomputable def scenarioCoords : List (Coord ℝ) :=
  [⟨0, 0⟩, ⟨0, 1 / 1000⟩, ⟨0, 2 / 1000⟩]

/-- The Haversine length of each scenario segment: 0.001 degrees of
longitude along the equator, i.e. `6371000 · (0.001·π/180)` ≈ 111.19 m. -/
noncomputable def scenarioSegLen : ℝ := 6371000 * (1 / 1000 * Real.pi / 180)

/-- On the equator the Haversine formula collapses to arc length:
`calculateDistance 0 l1 0 l2 = R · (l2 - l1) · π/180` for longitudes at
most 180 degrees apart. -/
theorem calculateDistance_equator (l1 l2 : ℝ) (h0 : l1 ≤ l2)
    (h180 : l2 - l1 ≤ 180) :
    calculateDistance 0 l1 0 l2 = 6371000 * ((l2 - l1) * Real.pi / 180) := by
  have hpi := Real.pi_pos
  unfold calculateDistance atan2
  dsimp only
  simp only [sub_self, zero_mul, zero_div, Real.sin_zero, Real.cos_zero,
    mul_zero, zero_add, one_mul, mul_one]
  set t := (l2 - l1) * Real.pi / 180 / 2 with ht
  have ht0 : 0 ≤ t := by
    rw [ht]
    have := mul_nonneg (sub_nonneg.2 h0) hpi.le
    positivity
  have htpi2 : t ≤ Real.pi / 2 := by
    rw [ht]
    have key : 0 ≤ (180 - (l2 - l1)) * Real.pi := mul_nonneg (by linarith) hpi.le
    nlinarith
  rw [Real.sqrt_mul_self (Real.sin_nonneg_of_nonneg_of_le_pi ht0
    (by linarith))]
  rw [show (1 : ℝ) - Real.sin t * Real.sin t = Real.cos t * Real.cos t from by
    nlinarith [Real.sin_sq_add_cos_sq t]]
  rw [Real.sqrt_mul_self (Real.cos_nonneg_of_mem_Icc ⟨by linarith, htpi2⟩)]
  rw [Complex.mk_eq_add_mul_I]
  rw [Complex.ofReal_cos, Complex.ofReal_sin]
  rw [Complex.arg_cos_add_sin_mul_I ⟨by linarith, by linarith⟩]
  rw [ht]
  ring

theorem havDist_seg1 : havDist ⟨0, 0⟩ ⟨0, 1 / 1000⟩ = scenarioSegLen := by
  unfold havDist scenarioSegLen
  dsimp only
  rw [calculateDistance_equator 0 (1 / 1000) (by norm_num) (by norm_num)]
  norm_num

theorem havDist_seg2 : havDist ⟨0, 1 / 1000⟩ ⟨0, 2 / 1000⟩ = scenarioSegLen := by
  unfold havDist scenarioSegLen
  dsimp only
  rw [calculateDistance_equator (1 / 1000) (2 / 1000) (by norm_num) (by norm_num)]
  ring_nf

theorem scenarioSegLen_gt_111 : 111 < scenarioSegLen := by
  unfold scenarioSegLen
  nlinarith [Real.pi_gt_d2]

theorem scenarioSegLen_lt_150 : scenarioSegLen < 150 := by
  unfold scenarioSegLen
  nlinarith [Real.pi_lt_four]

/-- Evaluation of the walk-forward operation on the scenario: 150 m from
index 0 consumes the first segment (length `scenarioSegLen` < 150) and
lands inside the second at fraction `(150 - scenarioSegLen) /
scenarioSegLen` of it, between indices 1 and 2. -/
theorem followRoutePath_scenario :
    followRoutePath havDist scenarioCoords 0 150 =
      some ⟨0, 1 / 1000 +
        1 / 1000 * ((150 - scenarioSegLen) / scenarioSegLen)⟩ := by
  have h111 := scenarioSegLen_gt_111
  have h150 := scenarioSegLen_lt_150
  unfold followRoutePath scenarioCoords
  rw [if_neg (by simp)]
  unfold followAux
  rw [dif_pos ⟨by simp, by norm_num⟩]
  dsimp only [List.getD_cons_zero, List.getD_cons_succ]
  rw [havDist_seg1]
  rw [if_neg (by linarith)]
  unfold followAux
  rw [dif_pos ⟨by simp, by linarith⟩]
  dsimp only [List.getD_cons_zero, List.getD_cons_succ]
  rw [havDist_seg2]
  rw [if_pos (by linarith)]
  unfold interpolate
  simp only [Option.some.injEq, Coord.mk.injEq]
  constructor <;> ring

/-- C1 (amended): for a non-empty polyline, a start index at or past the
last segment returns the final coordinate; for a positive requested
distance the walk equals the specification-side accumulate-then-interpolate
description (`walkAccum`); and the scenario lands between indices 1 and 2
at fraction `(150 - d)/d` of the second segment, where
`d = scenarioSegLen` is the actual Haversine segment length (≈ 111.19 m,
not exactly 111). -/
theorem followRoutePath_walkForward :
    (∀ {β : Type} [inst : LinearOrderedField β]
        (dist : Coord β → Coord β → β) (coords : List (Coord β))
        (start : Nat) (d : β),
      coords ≠ [] → coords.length - 1 ≤ start →
      followRoutePath dist coords start d =
        some ((coords.getLast?).getD default)) ∧
    (∀ {β : Type} [inst : LinearOrderedField β]
        (dist : Coord β → Coord β → β) (coords : List (Coord β))
        (start : Nat) (d : β),
      start < coords.length - 1 → 0 < d →
      followRoutePath dist coords start d =
        some (walkAccum dist coords start 0 d)) ∧
    followRoutePath havDist scenarioCoords 0 150 =
      some ⟨0, 1 / 1000 +
        1 / 1000 * ((150 - scenarioSegLen) / scenarioSegLen)⟩ := by
  refine ⟨?_, ?_, followRoutePath_scenario⟩
  · intro β inst dist coords start d hne hge
    cases coords with
    | nil => exact absurd rfl hne
    | cons c rest =>
      unfold followRoutePath
      rw [if_pos hge]
  · intro β inst dist coords start d hlt hd
    cases coords with
    | nil => simp at hlt
    | cons c rest =>
      unfold followRoutePath
      rw [if_neg (by omega)]
      rw [walkAccum_eq_followAux dist (c :: rest) (c :: rest).length start 0 d
        (by omega) hd, sub_zero]

/-- Witness for `followRoutePath_walkForward` on a concrete rational
polyline and positive distance. -/
theorem followRoutePath_walkForward_witness :
    (0 : ℚ) < 3 ∧
    followRoutePath taxiDist [⟨0, 0⟩, ⟨0, 1⟩, ⟨0, 5⟩] 0 (3 : ℚ) =
      some (walkAccum taxiDist [⟨0, 0⟩, ⟨0, 1⟩, ⟨0, 5⟩] 0 0 3) :=
  ⟨by norm_num,
    followRoutePath_walkForward.2.1 taxiDist _ 0 3 (by simp) (by norm_num)⟩

/-- Counterexample to C1 as stated: on the scenario the walk lands at
fraction `(150 - d)/d` of the second segment with `d = scenarioSegLen`
(≈ 111.19), which differs from the stated exact fraction
`(150 - 111)/111`; moreover with requested distance 0 the walk skips its
loop entirely and returns the polyline's last coordinate instead of a
point interpolated at the anchor. -/
theorem followRoutePath_exact_fraction_fails :
    followRoutePath havDist scenarioCoords 0 150 ≠
      some ⟨0, 1 / 1000 + 1 / 1000 * ((150 - 111) / 111)⟩ ∧
    followRoutePath havDist scenarioCoords 0 0 = some ⟨0, 2 / 1000⟩ := by
  constructor
  · rw [followRoutePath_scenario]
    intro h
    simp only [Option.some.injEq, Coord.mk.injEq] at h
    obtain ⟨-, h2⟩ := h
    have hs := scenarioSegLen_gt_111
    have hpos : (0 : ℝ) < scenarioSegLen := by linarith
    have h3 : (150 - scenarioSegLen) / scenarioSegLen = (150 - 111) / 111 := by
      linarith
    rw [div_eq_div_iff hpos.ne' (by norm_num : (111 : ℝ) ≠ 0)] at h3
    nlinarith
  · unfold followRoutePath scenarioCoords
    rw [if_neg (by simp)]
    unfold followAux
    rw [dif_neg (fun hh => absurd hh.2 (lt_irrefl 0))]
    rfl

end ScenarioProofs

end TswHud
